import Mathlib

/-!
Shallow embedding of `mmu_dryer.py` (class `FilamentDryer`), a timed
filament-drying controller for a 3D-printer host.

Modelling choices:
* Python floats are modelled as rationals (`ℚ`); the program performs only
  field assignments, `+`, `-`, `*`, `/` on them.
* The controller's observable state is a `World`: the dryer's own fields,
  the heater's target and current temperature, and the list of messages
  emitted so far (`respond_info` / `M118` output, modelled structurally as
  a `Message` inductive rather than as formatted strings).
* Python exceptions are modelled with `Except (DryerError × World)`: an
  error carries the world at the moment of the raise, so that theorems can
  speak about (absence of) partial mutation.
* The host environment (`Env`) records whether the configured heater name
  resolves (`printer.lookup_object('heaters').lookup_heater(...)`); the
  host's object table is fixed for the process lifetime, which also makes
  the lazy `self.heater` memoisation observationally irrelevant.
* `reactor.monotonic()` is read as a single `now` parameter per operation.
* Python `int(x)` truncates toward zero (`pyInt`); Python `%` with a
  positive modulus yields a result in `[0, b)` (`pyMod`); Python float
  division raises `ZeroDivisionError` on a zero divisor (`pyDiv`).
-/

namespace MmuDryer

/-- Python `int()` applied to a float: truncation toward zero. -/
def pyInt (q : ℚ) : Int := if 0 ≤ q then ⌊q⌋ else ⌈q⌉

/-- Python `%` on integers with a positive modulus: result in `[0, b)`. -/
def pyMod (a b : Int) : Int := ((a % b) + b) % b

/-- Python float division: `none` models the `ZeroDivisionError` raised on a
zero divisor. -/
def pyDiv (a b : ℚ) : Option ℚ := if b = 0 then none else some (a / b)

/-- Python `str.lower()` (ASCII case folding, matching the case folding the
preset names in question use), as a structurally recursive map over the
string's characters. -/
def lowerStr (s : String) : String := ⟨s.data.map Char.toLower⟩

/-- Python `str.strip()`: drop leading and trailing whitespace. -/
def trimStr (s : String) : String :=
  ⟨((s.data.dropWhile Char.isWhitespace).reverse.dropWhile Char.isWhitespace).reverse⟩

/-- Python `str.split(sep)` on a character list: `"".split(',') == ['']`,
and a separator between every pair of adjacent fields. -/
def splitChars (sep : Char) : List Char → List (List Char)
  | [] => [[]]
  | c :: cs =>
    match splitChars sep cs with
    | [] => [[]]
    | cur :: rest => if c = sep then [] :: cur :: rest else (c :: cur) :: rest

/-- Python `str.split(sep)` for a one-character separator. -/
def splitStr (sep : Char) (s : String) : List String :=
  (splitChars sep s.data).map String.mk

/-- Lexicographic comparison of character lists by code point — the order
Python's `sorted()` uses on strings. -/
def lexLeChars : List Char → List Char → Bool
  | [], _ => true
  | _ :: _, [] => false
  | a :: as, b :: bs => if a = b then lexLeChars as bs else decide (a < b)

/-- Python string `<=` (lexicographic by code point). -/
def lexLe (a b : String) : Bool := lexLeChars a.data b.data

/-- A registered drying preset: `self.presets[name] = {'temp': .., 'duration': ..}`
(duration already converted to seconds at construction). -/
structure Preset where
  temp : ℚ
  duration : ℚ
deriving DecidableEq

/-- The messages the module emits (`respond_info` and the `M118` progress
line), modelled structurally: each constructor carries exactly the numeric
values interpolated into the corresponding format string. -/
inductive Message
  | startedDrying (temp hours : ℚ)
  | dryingStopped
  | cycleComplete
  | progress (currentTemp progressPercent elapsedHours remainingHours : ℚ)
  | noCycleInProgress
  | statusIdle
  | statusActive (targetTemp currentTemp totalHours elapsedHours remainingHours
      progressPercent : ℚ)
  | noPresetsConfigured
  | presetListing (entries : List (String × ℚ × ℚ))
deriving DecidableEq

/-- The exceptions the module can raise. -/
inductive DryerError
  | alreadyActive
  | heaterNotFound
  | unknownPreset (name : String)
  | missingParameters
  | zeroDivision
deriving DecidableEq

/-- Return value of the reactor timer callback: the scheduler's `NEVER`
sentinel, or the next requested fire time. -/
inductive NextFire
  | never
  | fireAt (t : ℚ)
deriving DecidableEq

/-- The `FilamentDryer` instance fields that change over time
(`is_drying` .. `original_target` in `__init__`). `timer_handler` holds the
opaque reactor handle, modelled as the waketime it was registered with. -/
structure DryerState where
  is_drying : Bool
  target_temp : ℚ
  duration : ℚ
  start_time : ℚ
  end_time : ℚ
  timer_handler : Option ℚ
  original_target : ℚ
deriving DecidableEq

/-- Fixed host environment: whether `lookup_heater(self.heater_name)`
succeeds. -/
structure Env where
  heaterFound : Bool
deriving DecidableEq

/-- The observable world: controller state, the heater's commanded target
and measured temperature, and the messages emitted so far. The physical
temperature is external input and is never written by this module. -/
structure World where
  dryer : DryerState
  heaterTarget : ℚ
  heaterTemp : ℚ
  messages : List Message
deriving DecidableEq

/-- `__init__` drying-state defaults. -/
def initDryer : DryerState :=
  { is_drying := false, target_temp := 0, duration := 0, start_time := 0,
    end_time := 0, timer_handler := none, original_target := 0 }

/-- A freshly constructed controller in a host whose heater starts with the
given target and temperature. -/
def initWorld (target temp : ℚ) : World :=
  { dryer := initDryer, heaterTarget := target, heaterTemp := temp, messages := [] }

/-- `FilamentDryer._stop_timer`: unregister the pending callback (external)
and clear the handle. -/
def stop_timer (d : DryerState) : DryerState := { d with timer_handler := none }

/-- `FilamentDryer._stop_drying`: no-op when idle; otherwise cancel the
timer, restore the heater target, clear the cycle fields, emit a message.
The `_get_heater()` call can raise only if the heater was never resolvable;
the error branch reflects that the timer was already cancelled by then. -/
def stop_drying (env : Env) (w : World) : Except (DryerError × World) World :=
  if w.dryer.is_drying = false then .ok w
  else
    let w1 := { w with dryer := stop_timer w.dryer }
    if env.heaterFound = false then .error (.heaterNotFound, w1)
    else
      let w2 := { w1 with heaterTarget := w1.dryer.original_target }
      .ok { w2 with
            dryer := { w2.dryer with
                         is_drying := false
                         target_temp := 0
                         duration := 0
                         start_time := 0
                         end_time := 0 }
            messages := w2.messages ++ [.dryingStopped] }

/-- `FilamentDryer._timer_callback(eventtime)`. -/
def timer_callback (env : Env) (eventtime : ℚ) (w : World) :
    Except (DryerError × World) (World × NextFire) :=
  if w.dryer.is_drying = false then .ok (w, .never)
  else
    let remaining := w.dryer.end_time - eventtime
    if remaining ≤ 0 then
      let w1 := { w with messages := w.messages ++ [.cycleComplete] }
      match stop_drying env w1 with
      | .ok w2 => .ok (w2, .never)
      | .error e => .error e
    else
      if pyMod (pyInt (eventtime - w.dryer.start_time)) 300 = 0 then
        let remaining_hours := remaining / 3600
        let elapsed_hours := (eventtime - w.dryer.start_time) / 3600
        match pyDiv (eventtime - w.dryer.start_time) w.dryer.duration with
        | none => .error (.zeroDivision, w)
        | some q =>
          let progress := q * 100
          if env.heaterFound = false then .error (.heaterNotFound, w)
          else
            .ok ({ w with messages := w.messages ++
                   [.progress w.heaterTemp progress elapsed_hours remaining_hours] },
                 .fireAt (eventtime + 1))
      else .ok (w, .fireAt (eventtime + 1))

/-- `FilamentDryer._start_drying(temp, duration)`: reject if active, resolve
the heater, capture its target, command the new target, record the cycle
fields, arm the timer one second out, emit a confirmation. (The
`idle_timeout.set_state("Printing")` call touches only the external
idle-timeout subsystem and is not part of the modelled state.) -/
def start_drying (env : Env) (temp duration now : ℚ) (w : World) :
    Except (DryerError × World) World :=
  if w.dryer.is_drying = true then .error (.alreadyActive, w)
  else if env.heaterFound = false then .error (.heaterNotFound, w)
  else
    let original := w.heaterTarget
    let w1 := { w with heaterTarget := temp }
    .ok { w1 with
          dryer := { is_drying := true
                     target_temp := temp
                     duration := duration
                     start_time := now
                     end_time := now + duration
                     timer_handler := some (now + 1)
                     original_target := original }
          messages := w1.messages ++ [.startedDrying temp (duration / 3600)] }

/-- The free-form parameters of `START_FILAMENT_DRYING`. -/
structure GCodeParams where
  preset : Option String
  temp : Option ℚ
  duration : Option ℚ

/-- `FilamentDryer.cmd_START_FILAMENT_DRYING`: preset mode when a non-empty
`PRESET` is given (Python truthiness), otherwise manual mode with `TEMP` and
`DURATION` (hours, converted to seconds). -/
def cmd_START_FILAMENT_DRYING (env : Env) (presets : List (String × Preset))
    (p : GCodeParams) (now : ℚ) (w : World) : Except (DryerError × World) World :=
  let manual : Except (DryerError × World) World :=
    match p.temp, p.duration with
    | some t, some d => start_drying env t (d * 3600) now w
    | _, _ => .error (.missingParameters, w)
  match p.preset with
  | some name =>
    if name = "" then manual
    else
      match List.lookup (lowerStr name) presets with
      | none => .error (.unknownPreset (lowerStr name), w)
      | some pr => start_drying env pr.temp pr.duration now w
  | none => manual

/-- `FilamentDryer.cmd_STOP_FILAMENT_DRYING`: informational no-op when idle,
otherwise `_stop_drying`. -/
def cmd_STOP_FILAMENT_DRYING (env : Env) (w : World) :
    Except (DryerError × World) World :=
  if w.dryer.is_drying = false then
    .ok { w with messages := w.messages ++ [.noCycleInProgress] }
  else stop_drying env w

/-- `FilamentDryer.cmd_DRYER_STATUS`: idle report when not drying; otherwise
computes elapsed/remaining/progress (the progress division by
`self.duration` is unguarded) and reads the heater before responding. -/
def cmd_DRYER_STATUS (env : Env) (now : ℚ) (w : World) :
    Except (DryerError × World) World :=
  if w.dryer.is_drying = false then
    .ok { w with messages := w.messages ++ [.statusIdle] }
  else
    let elapsed := now - w.dryer.start_time
    let remaining := w.dryer.end_time - now
    let elapsed_hours := elapsed / 3600
    let remaining_hours := remaining / 3600
    let total_hours := w.dryer.duration / 3600
    match pyDiv elapsed w.dryer.duration with
    | none => .error (.zeroDivision, w)
    | some q =>
      let progress := q * 100
      if env.heaterFound = false then .error (.heaterNotFound, w)
      else
        .ok { w with messages := w.messages ++
              [.statusActive w.dryer.target_temp w.heaterTemp total_hours
                elapsed_hours remaining_hours progress] }

/-- `sorted(self.presets.items())`: Python sorts the pairs, whose keys are
unique, so effectively by name. -/
def sortedPresets (presets : List (String × Preset)) : List (String × Preset) :=
  presets.mergeSort (fun a b => lexLe a.1 b.1)

/-- The abstract listing produced by `cmd_LIST_DRYER_PRESETS`: one
`(name, targetTemperature, durationHours)` entry per registered preset, in
sorted order (`settings['duration'] / 3600.0`; the display string merely
uppercases the name). -/
def list_presets (presets : List (String × Preset)) : List (String × ℚ × ℚ) :=
  (sortedPresets presets).map (fun e => (e.1, e.2.temp, e.2.duration / 3600))

/-- `FilamentDryer.cmd_LIST_DRYER_PRESETS`. -/
def cmd_LIST_DRYER_PRESETS (presets : List (String × Preset)) (w : World) : World :=
  if presets = [] then { w with messages := w.messages ++ [.noPresetsConfigured] }
  else { w with messages := w.messages ++ [.presetListing (list_presets presets)] }

/-- The fields of a `get_status` record present only while drying. -/
structure CycleStatus where
  duration : ℚ
  elapsed : ℚ
  remaining : ℚ
  progress : ℚ
deriving DecidableEq

/-- The dictionary returned by `FilamentDryer.get_status`. -/
structure StatusRecord where
  is_drying : Bool
  target_temp : ℚ
  cycle : Option CycleStatus
deriving DecidableEq

/-- `FilamentDryer.get_status(eventtime)`: a pure read (it takes the world
and returns only a record, touching no state). -/
def get_status (eventtime : ℚ) (w : World) : StatusRecord :=
  if w.dryer.is_drying = true then
    let elapsed := eventtime - w.dryer.start_time
    let remaining := w.dryer.end_time - eventtime
    { is_drying := w.dryer.is_drying
      target_temp := w.dryer.target_temp
      cycle := some
        { duration := w.dryer.duration
          elapsed := elapsed
          remaining := remaining
          progress := if w.dryer.duration > 0
            then (elapsed / w.dryer.duration) * 100 else 0 } }
  else
    { is_drying := w.dryer.is_drying
      target_temp := w.dryer.target_temp
      cycle := none }

/-- The static configuration consumed by `__init__`: the raw `presets`
value and the per-name `preset_<name>_temp` / `preset_<name>_duration`
lookups (`config.getfloat(..., None)`). -/
structure Config where
  presetsValue : String
  presetTemp : String → Option ℚ
  presetDuration : String → Option ℚ

/-- Python dict assignment `d[k] = v`: replace in place if the key exists,
else append (insertion order is preserved). -/
def dictInsert (l : List (String × Preset)) (k : String) (v : Preset) :
    List (String × Preset) :=
  if l.any (fun e => e.1 = k) then
    l.map (fun e => if e.1 = k then (k, v) else e)
  else l ++ [(k, v)]

/-- The preset-table construction loop in `__init__`: split on commas,
strip, skip empties, register under the lower-cased name only when both
values are present, converting the duration from hours to seconds. -/
def buildPresets (config : Config) : List (String × Preset) :=
  (splitStr ',' config.presetsValue).foldl (fun acc n =>
    let n := trimStr n
    if n = "" then acc
    else
      match config.presetTemp n, config.presetDuration n with
      | some t, some d => dictInsert acc (lowerStr n) ⟨t, d * 3600⟩
      | _, _ => acc) []

/-- A configuration registering the preset `petg` with
`preset_petg_temp=70` and `preset_petg_duration=4` (hours), as in the
spec's example. -/
def petgConfig : Config :=
  ⟨"petg", fun n => if n = "petg" then some 70 else none,
   fun n => if n = "petg" then some 4 else none⟩

/-- A concrete active-cycle world: 70 °C for 7200 s started at time 10 on a
controller whose heater target was 0 (the state `start_drying` produces). -/
def exDrying : World :=
  ⟨⟨true, 70, 7200, 10, 7210, some 11, 0⟩, 70, 25, []⟩

/-- The world after a fallible operation, whether it returned normally or
raised (the exception carries the world at the raise). -/
def outWorld : Except (DryerError × World) World → World
  | .ok w => w
  | .error (_, w) => w

/-- As `outWorld`, for the timer callback's paired result. -/
def outWorldT : Except (DryerError × World) (World × NextFire) → World
  | .ok (w, _) => w
  | .error (_, w) => w

/-- One externally triggerable state-changing operation: a start command, a
stop command, or a timer-callback firing. -/
inductive Op
  | start (p : GCodeParams) (now : ℚ)
  | stop
  | tick (now : ℚ)

/-- Run one operation, keeping the world even when the operation raises. -/
def runOp (env : Env) (presets : List (String × Preset)) : Op → World → World
  | .start p now, w => outWorld (cmd_START_FILAMENT_DRYING env presets p now w)
  | .stop, w => outWorld (cmd_STOP_FILAMENT_DRYING env w)
  | .tick now, w => outWorldT (timer_callback env now w)

/-- The worlds reachable from a freshly constructed controller by any
sequence of start, stop and tick operations. -/
inductive Reachable (env : Env) (presets : List (String × Preset)) : World → Prop
  | init (target temp : ℚ) : Reachable env presets (initWorld target temp)
  | step {w : World} (op : Op) : Reachable env presets w →
      Reachable env presets (runOp env presets op w)

/-- The controller's state invariant: the timer handle is present exactly
while drying; while idle the cycle fields hold their zero defaults; an
active cycle implies the heater resolved at start and
`end_time = start_time + duration`. -/
def Inv (env : Env) (w : World) : Prop :=
  w.dryer.timer_handler.isSome = w.dryer.is_drying ∧
  (w.dryer.is_drying = false → w.dryer.target_temp = 0 ∧ w.dryer.duration = 0 ∧
    w.dryer.start_time = 0 ∧ w.dryer.end_time = 0) ∧
  (w.dryer.is_drying = true → env.heaterFound = true ∧
    w.dryer.end_time = w.dryer.start_time + w.dryer.duration)

lemma inv_initWorld (env : Env) (target temp : ℚ) : Inv env (initWorld target temp) := by
  simp [Inv, initWorld, initDryer]

lemma inv_start_drying (env : Env) (t d now : ℚ) (w : World) (h : Inv env w) :
    Inv env (outWorld (start_drying env t d now w)) := by
  by_cases hd : w.dryer.is_drying = true
  · simpa [start_drying, hd, outWorld] using h
  · by_cases hf : env.heaterFound = false
    · simpa [start_drying, hd, hf, outWorld] using h
    · simp [start_drying, hd, hf, outWorld, Inv]

lemma inv_stop_drying (env : Env) (w : World) (h : Inv env w) :
    Inv env (outWorld (stop_drying env w)) := by
  by_cases hd : w.dryer.is_drying = false
  · simpa [stop_drying, hd, outWorld] using h
  · have hf : env.heaterFound = true := (h.2.2 (by simpa using hd)).1
    simp [stop_drying, hd, hf, outWorld, Inv, stop_timer]

lemma inv_cmd_start (env : Env) (presets : List (String × Preset))
    (p : GCodeParams) (now : ℚ) (w : World) (h : Inv env w) :
    Inv env (outWorld (cmd_START_FILAMENT_DRYING env presets p now w)) := by
  rcases p with ⟨preset, temp, dur⟩
  have hman : Inv env (outWorld
      (match temp, dur with
       | some t, some d => start_drying env t (d * 3600) now w
       | _, _ => .error (.missingParameters, w))) := by
    rcases temp with _ | t <;> rcases dur with _ | d
    · exact h
    · exact h
    · exact h
    · exact inv_start_drying env t (d * 3600) now w h
  rcases preset with _ | name
  · exact hman
  · by_cases hn : name = ""
    · simpa [cmd_START_FILAMENT_DRYING, hn] using hman
    · rcases hlu : List.lookup (lowerStr name) presets with _ | pr
      · simpa [cmd_START_FILAMENT_DRYING, hn, hlu, outWorld] using h
      · simpa [cmd_START_FILAMENT_DRYING, hn, hlu] using
          inv_start_drying env pr.temp pr.duration now w h

lemma inv_cmd_stop (env : Env) (w : World) (h : Inv env w) :
    Inv env (outWorld (cmd_STOP_FILAMENT_DRYING env w)) := by
  by_cases hd : w.dryer.is_drying = false
  · simp only [cmd_STOP_FILAMENT_DRYING, hd, if_true, outWorld]
    simpa [Inv] using h
  · simpa [cmd_STOP_FILAMENT_DRYING, hd] using inv_stop_drying env w h

lemma inv_tick (env : Env) (now : ℚ) (w : World) (h : Inv env w) :
    Inv env (outWorldT (timer_callback env now w)) := by
  by_cases hd : w.dryer.is_drying = false
  · simpa [timer_callback, hd, outWorldT] using h
  · have hinv1 : Inv env { w with messages := w.messages ++ [.cycleComplete] } := by
      simpa [Inv] using h
    by_cases hr : w.dryer.end_time - now ≤ 0
    · have := inv_stop_drying env { w with messages := w.messages ++ [.cycleComplete] } hinv1
      simp only [timer_callback, hd, if_false, hr, if_true]
      rcases hso : stop_drying env { w with messages := w.messages ++ [.cycleComplete] } with e | w2
      · simpa [outWorldT, hso, outWorld] using this
      · simpa [outWorldT, hso, outWorld] using this
    · by_cases hm : pyMod (pyInt (now - w.dryer.start_time)) 300 = 0
      · rcases hq : pyDiv (now - w.dryer.start_time) w.dryer.duration with _ | q
        · simpa [timer_callback, hd, hr, hm, hq, outWorldT] using h
        · by_cases hf : env.heaterFound = false
          · simpa [timer_callback, hd, hr, hm, hq, hf, outWorldT] using h
          · simp only [timer_callback, hd, if_false, hr, hm, if_true, hq, hf]
            simpa [outWorldT, Inv] using h
      · simpa [timer_callback, hd, hr, hm, outWorldT] using h

lemma inv_runOp (env : Env) (presets : List (String × Preset)) (op : Op)
    (w : World) (h : Inv env w) : Inv env (runOp env presets op w) := by
  cases op with
  | start p now => exact inv_cmd_start env presets p now w h
  | stop => exact inv_cmd_stop env w h
  | tick now => exact inv_tick env now w h

lemma reachable_inv {env : Env} {presets : List (String × Preset)} {w : World}
    (h : Reachable env presets w) : Inv env w := by
  induction h with
  | init target temp => exact inv_initWorld env target temp
  | step op _ ih => exact inv_runOp _ _ op _ ih

lemma buildPresets_petg : buildPresets petgConfig = [("petg", ⟨70, 14400⟩)] := by
  have h1 : splitStr ',' "petg" = ["petg"] := by decide
  have h2 : trimStr "petg" = "petg" := by decide
  have h3 : lowerStr "petg" = "petg" := by decide
  have h4 : (4 : ℚ) * 3600 = 14400 := by norm_num
  simp [buildPresets, petgConfig, h1, h2, h3, h4, dictInsert]

lemma lexLeChars_trans : ∀ a b c, lexLeChars a b = true → lexLeChars b c = true →
    lexLeChars a c = true
  | [], _, _ => by intro _ _; rfl
  | _ :: _, [], _ => by intro h; simp [lexLeChars] at h
  | _ :: _, _ :: _, [] => by intro _ h; simp [lexLeChars] at h
  | a :: as, b :: bs, c :: cs => by
    intro h1 h2
    simp only [lexLeChars] at h1 h2 ⊢
    by_cases hab : a = b
    · subst hab
      by_cases hbc : a = c
      · subst hbc
        simp at h1 h2 ⊢
        exact lexLeChars_trans as bs cs h1 h2
      · simpa [hbc] using h2
    · by_cases hbc : b = c
      · subst hbc
        simpa [hab] using h1
      · simp [hab] at h1
        simp [hbc] at h2
        have hac : a < c := lt_trans h1 h2
        simp [ne_of_lt hac, hac]

lemma lexLeChars_total : ∀ a b, (lexLeChars a b || lexLeChars b a) = true
  | [], _ => by simp [lexLeChars]
  | _ :: _, [] => by simp [lexLeChars]
  | a :: as, b :: bs => by
    simp only [lexLeChars]
    by_cases hab : a = b
    · subst hab
      simpa using lexLeChars_total as bs
    · have := lt_or_gt_of_ne hab
      rcases this with h | h
      · simp [hab, h]
      · simp [hab, Ne.symm hab, h, not_lt_of_gt h]

lemma start_drying_error_eq (env : Env) (temp dur now : ℚ) (w : World)
    {e : DryerError} {w' : World}
    (he : start_drying env temp dur now w = .error (e, w')) : w' = w := by
  by_cases hd : w.dryer.is_drying = true
  · simp [start_drying, hd] at he
    exact he.2.symm
  · by_cases hf : env.heaterFound = false
    · simp [start_drying, hd, hf] at he
      exact he.2.symm
    · simp [start_drying, hd, hf] at he

lemma cmd_start_error_eq (env : Env) (presets : List (String × Preset))
    (p : GCodeParams) (now : ℚ) (w : World) {e : DryerError} {w' : World}
    (he : cmd_START_FILAMENT_DRYING env presets p now w = .error (e, w')) :
    w' = w := by
  rcases p with ⟨preset, tp, dp⟩
  have hman : (match tp, dp with
       | some t, some d => start_drying env t (d * 3600) now w
       | _, _ => (.error (.missingParameters, w) : Except (DryerError × World) World))
      = .error (e, w') → w' = w := by
    rcases tp with _ | t <;> rcases dp with _ | d
    · intro hx; simp at hx; exact hx.2.symm
    · intro hx; simp at hx; exact hx.2.symm
    · intro hx; simp at hx; exact hx.2.symm
    · exact fun hx => start_drying_error_eq env t (d * 3600) now w hx
  rcases preset with _ | name
  · exact hman he
  · by_cases hn : name = ""
    · apply hman
      simpa [cmd_START_FILAMENT_DRYING, hn] using he
    · rcases hlu : List.lookup (lowerStr name) presets with _ | pr
      · simp [cmd_START_FILAMENT_DRYING, hn, hlu] at he
        exact he.2.symm
      · have he' : start_drying env pr.temp pr.duration now w = .error (e, w') := by
          simpa [cmd_START_FILAMENT_DRYING, hn, hlu] using he
        exact start_drying_error_eq env pr.temp pr.duration now w he'

/-- Claim C1: a timer-callback firing while drying at or past `end_time`
emits the completion message, performs exactly the cleanup `_stop_drying`
performs (timer cancelled, heater target restored to the captured
`original_target`, `is_drying` false and the four cycle fields zero), and
returns the reactor's `NEVER` sentinel. -/
theorem tick_completion_cleanup (env : Env) (now : ℚ) (w : World)
    (hd : w.dryer.is_drying = true) (hf : env.heaterFound = true)
    (hend : w.dryer.end_time ≤ now) :
    timer_callback env now w =
      .ok (⟨⟨false, 0, 0, 0, 0, none, w.dryer.original_target⟩,
            w.dryer.original_target, w.heaterTemp,
            w.messages ++ [.cycleComplete, .dryingStopped]⟩, .never) ∧
    timer_callback env now w =
      Except.map (fun w2 => (w2, NextFire.never))
        (stop_drying env { w with messages := w.messages ++ [.cycleComplete] }) := by
  have hr : w.dryer.end_time - now ≤ 0 := by linarith
  constructor
  · simp [timer_callback, hd, hr, stop_drying, stop_timer, hf]
  · simp [timer_callback, hd, hr, stop_drying, stop_timer, hf, Except.map]

/-- Witness for C1 at a concrete active cycle, fired exactly at its
`end_time`. -/
theorem tick_completion_cleanup_witness :
    timer_callback ⟨true⟩ 7210 exDrying =
      .ok (⟨⟨false, 0, 0, 0, 0, none, 0⟩, 0, 25,
            [.cycleComplete, .dryingStopped]⟩, .never) := by
  have h := (tick_completion_cleanup ⟨true⟩ 7210 exDrying rfl rfl
    (by norm_num [exDrying])).1
  simpa [exDrying] using h

/-- Claim C2: starting while a cycle is active fails with the
already-active error and returns the world unchanged; more generally every
failing start (internal `_start_drying` or the full
`cmd_START_FILAMENT_DRYING` handler, whatever the error) leaves the world
exactly as it was. -/
theorem start_fail_no_mutation (env : Env) (presets : List (String × Preset))
    (p : GCodeParams) (temp dur now : ℚ) (w : World) :
    (w.dryer.is_drying = true →
      start_drying env temp dur now w = .error (.alreadyActive, w)) ∧
    (∀ e w', start_drying env temp dur now w = .error (e, w') → w' = w) ∧
    (∀ e w', cmd_START_FILAMENT_DRYING env presets p now w = .error (e, w') →
      w' = w) := by
  refine ⟨fun h => by simp [start_drying, h],
    fun e w' he => start_drying_error_eq env temp dur now w he,
    fun e w' he => cmd_start_error_eq env presets p now w he⟩

/-- Witness for C2: a start on a concrete active cycle fails with the
already-active error and the very same world. -/
theorem start_fail_no_mutation_witness :
    exDrying.dryer.is_drying = true ∧
    start_drying ⟨true⟩ 60 3600 20 exDrying = .error (.alreadyActive, exDrying) :=
  ⟨rfl, (start_fail_no_mutation ⟨true⟩ [] ⟨none, none, none⟩ 60 3600 20
    exDrying).1 rfl⟩

/-- Claim C3: in every world reachable from a fresh controller by start,
stop and tick operations, the timer handle is present exactly while
`is_drying` is true. -/
theorem timer_handle_iff_drying (env : Env) (presets : List (String × Preset))
    (w : World) (h : Reachable env presets w) :
    w.dryer.timer_handler ≠ none ↔ w.dryer.is_drying = true := by
  rw [Option.ne_none_iff_isSome, (reachable_inv h).1]

/-- Witness for C3 at the initial world. -/
theorem timer_handle_iff_drying_witness :
    ((initWorld 0 25).dryer.timer_handler ≠ none ↔
      (initWorld 0 25).dryer.is_drying = true) :=
  timer_handle_iff_drying ⟨true⟩ [] (initWorld 0 25) (Reachable.init 0 25)

/-- Claim C4: from any idle state, starting (any positive temperature and
duration) and then immediately stopping restores the heater target to
exactly its pre-start value and returns every cycle field to its zero
default with the timer cancelled. -/
theorem start_stop_roundtrip (env : Env) (temp dur now : ℚ) (w : World)
    (hidle : w.dryer.is_drying = false) (hf : env.heaterFound = true)
    (ht : 0 < temp) (hdur : 0 < dur) :
    ∃ w1 w2, start_drying env temp dur now w = .ok w1 ∧
      stop_drying env w1 = .ok w2 ∧
      w2.heaterTarget = w.heaterTarget ∧
      w2.dryer.is_drying = false ∧ w2.dryer.target_temp = 0 ∧
      w2.dryer.duration = 0 ∧ w2.dryer.start_time = 0 ∧
      w2.dryer.end_time = 0 ∧ w2.dryer.timer_handler = none := by
  have h1 : start_drying env temp dur now w =
      .ok ⟨⟨true, temp, dur, now, now + dur, some (now + 1), w.heaterTarget⟩,
           temp, w.heaterTemp, w.messages ++ [.startedDrying temp (dur / 3600)]⟩ := by
    simp [start_drying, hidle, hf]
  have h2 : stop_drying env
      ⟨⟨true, temp, dur, now, now + dur, some (now + 1), w.heaterTarget⟩,
       temp, w.heaterTemp, w.messages ++ [.startedDrying temp (dur / 3600)]⟩ =
      .ok ⟨⟨false, 0, 0, 0, 0, none, w.heaterTarget⟩, w.heaterTarget, w.heaterTemp,
           w.messages ++ [.startedDrying temp (dur / 3600), .dryingStopped]⟩ := by
    simp [stop_drying, stop_timer, hf]
  exact ⟨_, _, h1, h2, rfl, rfl, rfl, rfl, rfl, rfl, rfl⟩

/-- Witness for C4 on a fresh controller whose heater target starts at 40. -/
theorem start_stop_roundtrip_witness :
    ∃ w1 w2, start_drying ⟨true⟩ 70 14400 10 (initWorld 40 25) = .ok w1 ∧
      stop_drying ⟨true⟩ w1 = .ok w2 ∧
      w2.heaterTarget = (initWorld 40 25).heaterTarget ∧
      w2.dryer.is_drying = false ∧ w2.dryer.target_temp = 0 ∧
      w2.dryer.duration = 0 ∧ w2.dryer.start_time = 0 ∧
      w2.dryer.end_time = 0 ∧ w2.dryer.timer_handler = none :=
  start_stop_roundtrip ⟨true⟩ 70 14400 10 (initWorld 40 25) rfl rfl
    (by norm_num) (by norm_num)

/-- Claim C5: a timer-callback firing while not drying returns the `NEVER`
sentinel with the world untouched (no heater write, no message, no state
change), so a stale fire after a stop does nothing. -/
theorem stale_tick_noop (env : Env) (now : ℚ) (w : World)
    (h : w.dryer.is_drying = false) :
    timer_callback env now w = .ok (w, .never) := by
  simp [timer_callback, h]

/-- Witness for C5 at the initial (idle) world. -/
theorem stale_tick_noop_witness :
    timer_callback ⟨true⟩ 5 (initWorld 0 25) = .ok (initWorld 0 25, .never) :=
  stale_tick_noop ⟨true⟩ 5 (initWorld 0 25) rfl

/-- Claim C6: `get_status` is a pure read (by its type it returns only a
record and no world); in every reachable idle world it returns
`{is_drying := false, target_temp := 0}` with no cycle fields, and while
drying its progress field is `elapsed/duration*100`, defined as 0 when the
duration is 0 (the code's explicit guard). -/
theorem get_status_idle_pure (env : Env) (presets : List (String × Preset))
    (t : ℚ) (w : World) (h : Reachable env presets w) :
    (w.dryer.is_drying = false →
      get_status t w = ⟨false, 0, none⟩) ∧
    (w.dryer.is_drying = true → (get_status t w).cycle =
      some ⟨w.dryer.duration, t - w.dryer.start_time, w.dryer.end_time - t,
        if w.dryer.duration > 0
          then (t - w.dryer.start_time) / w.dryer.duration * 100 else 0⟩) := by
  constructor
  · intro hi
    have h2 := (reachable_inv h).2.1 hi
    simp [get_status, hi, h2.1]
  · intro hd
    simp [get_status, hd]

/-- Witness for C6 at a reachable idle world. -/
theorem get_status_idle_pure_witness :
    get_status 3 (initWorld 40 25) = ⟨false, 0, none⟩ :=
  (get_status_idle_pure ⟨true⟩ [] 3 (initWorld 40 25) (Reachable.init 40 25)).1 rfl

/-- Claim C7: a start by registered preset name is the very same operation
as a manual start with that preset's temperature and duration expressed in
hours (the manual path re-multiplies by 3600), whatever TEMP/DURATION
parameters accompany the preset form. -/
theorem preset_start_equiv_manual (env : Env) (presets : List (String × Preset))
    (name : String) (pr : Preset) (tp dp : Option ℚ) (now : ℚ) (w : World)
    (hn : name ≠ "") (hlu : List.lookup (lowerStr name) presets = some pr) :
    cmd_START_FILAMENT_DRYING env presets ⟨some name, tp, dp⟩ now w =
    cmd_START_FILAMENT_DRYING env presets
      ⟨none, some pr.temp, some (pr.duration / 3600)⟩ now w := by
  have hcancel : pr.duration / 3600 * 3600 = pr.duration :=
    div_mul_cancel₀ _ (by norm_num)
  simp [cmd_START_FILAMENT_DRYING, hn, hlu, hcancel]

/-- Witness for C7: with the spec's `petg` configuration,
`PRESET=petg` equals `TEMP=70 DURATION=4`. -/
theorem preset_start_equiv_manual_witness :
    cmd_START_FILAMENT_DRYING ⟨true⟩ (buildPresets petgConfig)
      ⟨some "petg", none, none⟩ 5 (initWorld 0 25) =
    cmd_START_FILAMENT_DRYING ⟨true⟩ (buildPresets petgConfig)
      ⟨none, some 70, some 4⟩ 5 (initWorld 0 25) := by
  have hlu : List.lookup (lowerStr "petg") (buildPresets petgConfig) =
      some ⟨70, 14400⟩ := by
    rw [buildPresets_petg]
    decide
  have h := preset_start_equiv_manual ⟨true⟩ (buildPresets petgConfig) "petg"
    ⟨70, 14400⟩ none none 5 (initWorld 0 25) (by decide) hlu
  have e1 : ((14400 : ℚ) / 3600) = 4 := by norm_num
  simpa [e1] using h

/-- Claim C8: the preset listing has one `(name, temperature, hours)` entry
per registered preset (a permutation of the table mapped through the
hours conversion), is sorted by name, is empty when nothing is configured,
and the spec's `petg` configuration yields exactly `("petg", 70, 4)`. -/
theorem list_presets_spec :
    (∀ ps : List (String × Preset),
      (list_presets ps).Perm
        (ps.map (fun e => (e.1, e.2.temp, e.2.duration / 3600)))) ∧
    (∀ ps : List (String × Preset),
      (list_presets ps).Pairwise (fun a b => lexLe a.1 b.1 = true)) ∧
    list_presets [] = [] ∧
    (∀ w : World, cmd_LIST_DRYER_PRESETS [] w =
      { w with messages := w.messages ++ [.noPresetsConfigured] }) ∧
    buildPresets petgConfig = [("petg", ⟨70, 14400⟩)] ∧
    list_presets (buildPresets petgConfig) = [("petg", 70, 4)] := by
  refine ⟨?_, ?_, by simp [list_presets, sortedPresets],
    fun w => by simp [cmd_LIST_DRYER_PRESETS], buildPresets_petg, ?_⟩
  case refine_3 =>
    rw [buildPresets_petg]
    simp [list_presets, sortedPresets]
    norm_num
  · intro ps
    exact (List.mergeSort_perm ps (fun a b => lexLe a.1 b.1)).map _
  · intro ps
    have hs := @List.sorted_mergeSort (String × Preset)
      (fun a b => lexLe a.1 b.1)
      (fun a b c hab hbc => lexLeChars_trans a.1.data b.1.data c.1.data hab hbc)
      (fun a b => lexLeChars_total a.1.data b.1.data) ps
    exact List.Pairwise.map _ (fun a b hab => hab) hs

/-- Claim C9: a callback firing exactly 300 s after the start of an active
cycle longer than 300 s emits a progress message whose percentage is
`300/duration*100`, whose elapsed and remaining hours sum exactly to the
cycle duration in hours, and re-arms one second later; the boundary is
detected by the truncating `int(now - start) mod 300 == 0` test. -/
theorem progress_tick_at_300 (env : Env) (w : World)
    (hd : w.dryer.is_drying = true) (hf : env.heaterFound = true)
    (hdur : 300 < w.dryer.duration)
    (hend : w.dryer.end_time = w.dryer.start_time + w.dryer.duration) :
    timer_callback env (w.dryer.start_time + 300) w =
      .ok ({ w with messages := w.messages ++
            [.progress w.heaterTemp (300 / w.dryer.duration * 100) (300 / 3600)
              ((w.dryer.duration - 300) / 3600)] },
           .fireAt (w.dryer.start_time + 300 + 1)) ∧
    (300 : ℚ) / 3600 + (w.dryer.duration - 300) / 3600 = w.dryer.duration / 3600 ∧
    pyMod (pyInt (w.dryer.start_time + 300 - w.dryer.start_time)) 300 = 0 := by
  have hne : w.dryer.duration ≠ 0 := by linarith
  have he300 : w.dryer.start_time + 300 - w.dryer.start_time = (300 : ℚ) := by ring
  have hrem : w.dryer.end_time - (w.dryer.start_time + 300) =
      w.dryer.duration - 300 := by rw [hend]; ring
  have hrpos : ¬ (w.dryer.end_time - (w.dryer.start_time + 300) ≤ 0) := by
    rw [hrem]; intro hc; linarith
  have hng : ¬ w.dryer.duration ≤ 300 := not_le.mpr hdur
  have hpi : pyInt (300 : ℚ) = 300 := by norm_num [pyInt]
  have hpm : pyMod 300 300 = 0 := by decide
  refine ⟨?_, ?_, by rw [he300, hpi]; exact hpm⟩
  · simp [timer_callback, hd, hrpos, hng, he300, hrem, hpi, hpm, pyDiv, hne, hf]
  · rw [div_add_div_same]
    ring_nf

/-- Witness for C9: the concrete cycle (7200 s at 70 °C from t = 10) ticked
at t = 310. -/
theorem progress_tick_at_300_witness :
    timer_callback ⟨true⟩ 310 exDrying =
      .ok ({ exDrying with messages := [.progress 25 (25 / 6) (1 / 12) (23 / 12)] },
           .fireAt 311) := by
  have h := (progress_tick_at_300 ⟨true⟩ exDrying rfl rfl
    (by norm_num [exDrying]) (by norm_num [exDrying])).1
  have e1 : exDrying.dryer.start_time + 300 = (310 : ℚ) := by norm_num [exDrying]
  have e2 : (300 : ℚ) / exDrying.dryer.duration * 100 = 25 / 6 := by
    norm_num [exDrying]
  have e3 : (300 : ℚ) / 3600 = 1 / 12 := by norm_num
  have e4 : (exDrying.dryer.duration - 300) / 3600 = (23 : ℚ) / 12 := by
    norm_num [exDrying]
  rw [e1, e2, e3, e4] at h
  norm_num [exDrying] at h ⊢
  exact h

/-- Claim C10: `cmd_DRYER_STATUS` divides by `duration` with no zero guard
(the model raises the zero-division error exactly on an active
zero-duration cycle), `start_drying` itself accepts `duration = 0`
(creating such a cycle), while `get_status` guards the same division and
reports progress 0 instead. -/
theorem dryer_status_unguarded_division (env : Env) (temp now now2 : ℚ)
    (w : World) (hidle : w.dryer.is_drying = false) (hf : env.heaterFound = true) :
    (∀ w' : World, w'.dryer.is_drying = true → w'.dryer.duration = 0 →
      cmd_DRYER_STATUS env now2 w' = .error (.zeroDivision, w')) ∧
    (∃ w1, start_drying env temp 0 now w = .ok w1 ∧
      w1.dryer.is_drying = true ∧ w1.dryer.duration = 0 ∧
      cmd_DRYER_STATUS env now2 w1 = .error (.zeroDivision, w1)) ∧
    (∀ (w' : World) (t : ℚ), w'.dryer.is_drying = true → w'.dryer.duration = 0 →
      ∃ c, (get_status t w').cycle = some c ∧ c.progress = 0) := by
  have hzero : ∀ w' : World, w'.dryer.is_drying = true → w'.dryer.duration = 0 →
      cmd_DRYER_STATUS env now2 w' = .error (.zeroDivision, w') := by
    intro w' hd hz
    simp [cmd_DRYER_STATUS, hd, hz, pyDiv]
  refine ⟨hzero, ?_, ?_⟩
  · have h1 : start_drying env temp 0 now w =
        .ok ⟨⟨true, temp, 0, now, now + 0, some (now + 1), w.heaterTarget⟩,
             temp, w.heaterTemp, w.messages ++ [.startedDrying temp (0 / 3600)]⟩ := by
      simp [start_drying, hidle, hf]
    exact ⟨_, h1, rfl, rfl, hzero _ rfl rfl⟩
  · intro w' t hd hz
    have hc : (get_status t w').cycle =
        some ⟨w'.dryer.duration, t - w'.dryer.start_time, w'.dryer.end_time - t,
          if w'.dryer.duration > 0
            then (t - w'.dryer.start_time) / w'.dryer.duration * 100 else 0⟩ := by
      simp [get_status, hd]
    refine ⟨_, hc, ?_⟩
    simp [hz]

/-- Witness for C10: starting at duration 0 succeeds and the status command
then raises the division error. -/
theorem dryer_status_unguarded_division_witness :
    ∃ w1, start_drying ⟨true⟩ 70 0 10 (initWorld 0 25) = .ok w1 ∧
      w1.dryer.is_drying = true ∧ w1.dryer.duration = 0 ∧
      cmd_DRYER_STATUS ⟨true⟩ 12 w1 = .error (.zeroDivision, w1) :=
  (dryer_status_unguarded_division ⟨true⟩ 70 10 12 (initWorld 0 25) rfl rfl).2.1

end MmuDryer
